import Mathlib

/-!
Shallow embedding of the qbouncer supervisor and its collaborator adapters
(config validation, qBittorrent Web API client, NAT-PMP client, killswitch
manager, state store, and the supervisor tick), translated from the Python
sources under src/qbouncer/.  External effects (subprocess results, HTTP
responses, the host firewall, the state file) are supplied through explicit
environment records; each embedded function mirrors the control flow of the
source function it is named after.
-/

namespace QBouncer

/-! ## Configuration (config.py) -/

/-- Python `str.upper` as applied to `log_level` (ASCII, which is all the
validator compares against). -/
def pyUpper (s : String) : String := ⟨s.data.map Char.toUpper⟩

/-- Full-string match of `INTERFACE_PATTERN = ^[a-zA-Z][a-zA-Z0-9_-]{0,14}$`
(config.py line 23). -/
def interfaceMatch (s : String) : Bool :=
  match s.data with
  | [] => false
  | c :: rest =>
      c.isAlpha && decide (rest.length ≤ 14)
        && rest.all (fun d => d.isAlphanum || d = '_' || d = '-')

/-- Splitting a character list on `'.'`, with the semantics of
`str.split('.')`: every separator starts a new (possibly empty) group. -/
def splitOnDot : List Char → List (List Char)
  | [] => [[]]
  | c :: rest =>
      if c = '.' then [] :: splitOnDot rest
      else
        match splitOnDot rest with
        | [] => [[c]]
        | g :: gs => (c :: g) :: gs

/-- Full-string match of `IP_PATTERN = ^\d{1,3}\.\d{1,3}\.\d{1,3}\.\d{1,3}$`
(config.py line 24): four dot-separated groups of one to three digits. -/
def ipMatch (s : String) : Bool :=
  let parts := splitOnDot s.data
  decide (parts.length = 4)
    && parts.all (fun p =>
        decide (1 ≤ p.length) && decide (p.length ≤ 3) && p.all Char.isDigit)

/-- The `Config` dataclass (config.py lines 36-70) with its field defaults.
Integer-valued fields are `Int`, as Python `int()` conversion places no range
restriction before validation. -/
structure Config where
  wg_interface : String := "wg2"
  wg_health_check_host : String := "10.2.0.1"
  wg_health_check_interval : Int := 30
  natpmp_gateway : String := "10.2.0.1"
  natpmp_refresh_interval : Int := 60
  natpmp_lease_lifetime : Int := 120
  qbt_host : String := "localhost"
  qbt_port : Int := 80
  qbt_use_https : Bool := false
  qbt_verify_ssl : Bool := true
  qbt_username : String := ""
  qbt_password : String := ""
  qbt_interface_binding : String := "wg2"
  log_level : String := "INFO"
  state_file : String := "/var/lib/qbouncer/state.json"
  max_consecutive_failures : Int := 5
  failure_backoff_base : Int := 5
  failure_backoff_max : Int := 300
  killswitch_enabled : Bool := false
  killswitch_user : String := "qbittorrent"

/-- `Config._validate` (config.py lines 76-136), checks in source order.
`userExists` models `pwd.getpwnam(killswitch_user)` succeeding.  Returns the
`ConfigError` message raised, or `none` when the configuration is valid. -/
def Config.validate (c : Config) (userExists : Bool) : Option String :=
  if interfaceMatch c.wg_interface = false then
    some "Invalid WireGuard interface name"
  else if interfaceMatch c.qbt_interface_binding = false then
    some "Invalid qBittorrent interface binding"
  else if ipMatch c.wg_health_check_host = false then
    some "Invalid health check host IP"
  else if ipMatch c.natpmp_gateway = false then
    some "Invalid NAT-PMP gateway IP"
  else if ¬(1 ≤ c.qbt_port ∧ c.qbt_port ≤ 65535) then
    some "Invalid qBittorrent port"
  else if c.wg_health_check_interval < 1 then
    some "Health check interval must be at least 1 second"
  else if c.natpmp_refresh_interval < 1 then
    some "NAT-PMP refresh interval must be at least 1 second"
  else if c.natpmp_lease_lifetime < 1 then
    some "NAT-PMP lease lifetime must be at least 1 second"
  else if c.natpmp_refresh_interval ≥ c.natpmp_lease_lifetime then
    some "NAT-PMP refresh interval must be less than lease lifetime"
  else if c.max_consecutive_failures < 1 then
    some "max_consecutive_failures must be at least 1"
  else if c.failure_backoff_base < 1 then
    some "failure_backoff_base must be at least 1 second"
  else if c.failure_backoff_max < c.failure_backoff_base then
    some "failure_backoff_max must be >= failure_backoff_base"
  else if ¬(pyUpper c.log_level ∈ ["DEBUG", "INFO", "WARNING", "ERROR"]) then
    some "Invalid log level"
  else if c.killswitch_enabled ∧ userExists = false then
    some "Killswitch user not found"
  else
    none

/-- Every `_validate` check other than the `refresh_interval < lease_lifetime`
comparison, spelled out from config.py lines 79-136. -/
def configOtherFieldsValid (c : Config) (userExists : Bool) : Prop :=
  interfaceMatch c.wg_interface = true ∧
  interfaceMatch c.qbt_interface_binding = true ∧
  ipMatch c.wg_health_check_host = true ∧
  ipMatch c.natpmp_gateway = true ∧
  (1 ≤ c.qbt_port ∧ c.qbt_port ≤ 65535) ∧
  1 ≤ c.wg_health_check_interval ∧
  1 ≤ c.natpmp_refresh_interval ∧
  1 ≤ c.natpmp_lease_lifetime ∧
  1 ≤ c.max_consecutive_failures ∧
  1 ≤ c.failure_backoff_base ∧
  c.failure_backoff_base ≤ c.failure_backoff_max ∧
  pyUpper c.log_level ∈ ["DEBUG", "INFO", "WARNING", "ERROR"] ∧
  (c.killswitch_enabled = true → userExists = true)

instance (c : Config) (u : Bool) : Decidable (configOtherFieldsValid c u) := by
  unfold configOtherFieldsValid; infer_instance

/-! ## qBittorrent Web API client (qbittorrent.py) -/

/-- A JSON value as it appears in the flat preference objects this client
sends (`listen_port` is an integer, `current_network_interface` a string). -/
inductive PrefValue
  | int (n : Int)
  | str (s : String)
deriving DecidableEq

/-- Escaping of a single character inside a JSON string literal, as
`json.dumps` performs it for the characters that can occur here. -/
def jsonEscapeChar (c : Char) : String :=
  if c = '\\' then "\\\\"
  else if c = '"' then "\\\""
  else String.singleton c

/-- A JSON string literal: quoted, with its characters escaped. -/
def jsonEscape (s : String) : String :=
  "\"" ++ String.join (s.data.map jsonEscapeChar) ++ "\""

/-- A single JSON value rendered as `json.dumps` renders it. -/
def dumpsValue : PrefValue → String
  | .int n => toString n
  | .str s => jsonEscape s

/-- Python `json.dumps` on a flat object, with its default separators
`", "` and `": "` and keys in insertion order. -/
def dumps (prefs : List (String × PrefValue)) : String :=
  "\x7b" ++
    String.intercalate ", "
      (prefs.map fun kv => jsonEscape kv.1 ++ ": " ++ dumpsValue kv.2) ++
  "\x7d"

/-- One HTTP call issued by the client: method, endpoint, and form data. -/
structure HttpRequest where
  method : String
  endpoint : String
  formData : List (String × String)
deriving DecidableEq

/-- `set_preferences` (qbittorrent.py lines 146-159): a single `_request`
POST to `/api/v2/app/setPreferences` whose form field `json` holds the
JSON-encoded preference object.  Returns the API calls made. -/
def set_preferences (prefs : List (String × PrefValue)) : List HttpRequest :=
  [{ method := "post", endpoint := "/api/v2/app/setPreferences",
     formData := [("json", dumps prefs)] }]

/-- `update_port_and_interface` (qbittorrent.py lines 218-231): one
`set_preferences` call carrying both keys. -/
def update_port_and_interface (port : Int) (iface : String) : List HttpRequest :=
  set_preferences
    [("listen_port", .int port), ("current_network_interface", .str iface)]

/-- The outcome of one HTTP exchange as seen by `requests`: a connection
error, a timeout, or a response with status code and body text. -/
inductive HttpOutcome
  | connError
  | timeout
  | resp (status : Nat) (text : String)

/-- The HTTP outcomes available to one `_request` invocation: the login POST
before the first attempt (if authentication is needed), the first attempt,
the re-authentication login after a 403, and the retried attempt. -/
structure ReqEnv where
  login1 : HttpOutcome
  first : HttpOutcome
  login2 : HttpOutcome
  second : HttpOutcome

/-- The wire-level actions of one `_request` invocation, in order. -/
inductive ApiAction
  | login
  | attempt (method : String) (endpoint : String)
deriving DecidableEq

/-- `_login` (qbittorrent.py lines 63-85): POST to `/api/v2/auth/login`.
Connection error, timeout, non-2xx (`raise_for_status`), or a body other
than the literal `"Ok."` raise `QBittorrentError`; success sets
`_authenticated`. -/
def loginResult : HttpOutcome → Except Unit Unit
  | .connError => .error ()
  | .timeout => .error ()
  | .resp st text =>
      if 400 ≤ st then .error ()
      else if text = "Ok." then .ok ()
      else .error ()

/-- `_ensure_authenticated` (qbittorrent.py lines 52-61): no-op when no
username is configured or a session is already held, otherwise `_login`.
Returns the new `_authenticated` flag and the actions performed. -/
def ensure_authenticated (username : String) (authed : Bool) (o : HttpOutcome) :
    Except Unit Bool × List ApiAction :=
  if username = "" then (.ok authed, [])
  else if authed then (.ok authed, [])
  else
    match loginResult o with
    | .ok _ => (.ok true, [.login])
    | .error _ => (.error (), [.login])

/-- `_request` (qbittorrent.py lines 87-129): authenticate lazily, perform
the request, and on a 403 with a username configured re-authenticate once
and retry the same request once; `raise_for_status` on the final response.
Returns the final (status, body) or an error (`QBittorrentError`), together
with the trace of wire-level actions. -/
def requestCall (username : String) (authed : Bool) (method endpoint : String)
    (env : ReqEnv) : Except Unit (Nat × String) × List ApiAction :=
  match ensure_authenticated username authed env.login1 with
  | (.error _, tr) => (.error (), tr)
  | (.ok _, tr0) =>
      let tr1 := tr0 ++ [ApiAction.attempt method endpoint]
      match env.first with
      | .connError => (.error (), tr1)
      | .timeout => (.error (), tr1)
      | .resp st text =>
          if st = 403 ∧ username ≠ "" then
            match ensure_authenticated username false env.login2 with
            | (.error _, tr) => (.error (), tr1 ++ tr)
            | (.ok _, tr) =>
                let tr2 := tr1 ++ tr ++ [ApiAction.attempt method endpoint]
                match env.second with
                | .connError => (.error (), tr2)
                | .timeout => (.error (), tr2)
                | .resp st2 text2 =>
                    if 400 ≤ st2 then (.error (), tr2) else (.ok (st2, text2), tr2)
          else if 400 ≤ st then (.error (), tr1)
          else (.ok (st, text), tr1)

/-- Whether an HTTP outcome makes the (final) request fail: connection error,
timeout, or a status `raise_for_status` rejects. -/
def outcomeFails : HttpOutcome → Bool
  | .connError => true
  | .timeout => true
  | .resp st _ => decide (400 ≤ st)

/-- `get_version` (qbittorrent.py lines 233-243): GET `/api/v2/app/version`
through `_request`, catching `QBittorrentError` and returning the literal
`"unknown"` instead. -/
def get_version (username : String) (authed : Bool) (env : ReqEnv) : String :=
  match (requestCall username authed "get" "/api/v2/app/version" env).1 with
  | .error _ => "unknown"
  | .ok r => r.2.trim

/-! ## NAT-PMP client (natpmp.py) -/

/-- One `natpmpc` subprocess invocation: argv and the `timeout=` passed to
`subprocess.run`. -/
structure Invocation where
  argv : List String
  timeoutSec : Nat
deriving DecidableEq

/-- The mutable fields of `NatPmpManager` (natpmp.py lines 46-56). -/
structure NatPmpManager where
  gateway : String
  lease_lifetime : Int := 120
  current_port : Option Nat := none
  last_refresh : Option Nat := none
deriving DecidableEq

/-- `PortMapping` (natpmp.py lines 26-34); the timestamp is an abstract
instant. -/
structure PortMapping where
  public_port : Nat
  private_port : Nat
  protocol : String
  lifetime : Nat
  timestamp : Nat
deriving DecidableEq

/-- The `natpmpc` invocation made by `request_mapping` (natpmp.py lines
72-87): `natpmpc -a 1 0 {tcp|udp} <lifetime> -g <gateway>`, `timeout=30`. -/
def request_mapping_cmd (m : NatPmpManager) (protocol : String) : Invocation :=
  { argv := ["natpmpc", "-a", "1", "0", protocol, toString m.lease_lifetime,
             "-g", m.gateway],
    timeoutSec := 30 }

/-- The `natpmpc` invocation made by `get_public_ip` (natpmp.py lines
188-194): `natpmpc -g <gateway>`, `timeout=10`. -/
def get_public_ip_cmd (m : NatPmpManager) : Invocation :=
  { argv := ["natpmpc", "-g", m.gateway], timeoutSec := 10 }

/-- The `natpmpc` invocation made by `release_mapping` (natpmp.py lines
217-232): `natpmpc -a <port> 0 {tcp|udp} 0 -g <gateway>`, `timeout=10`. -/
def release_mapping_cmd (m : NatPmpManager) (port : Nat) (protocol : String) :
    Invocation :=
  { argv := ["natpmpc", "-a", toString port, "0", protocol, "0",
             "-g", m.gateway],
    timeoutSec := 10 }

/-- The outcomes of the two `request_mapping` calls inside one refresh, plus
the current instant (`datetime.now`). An `.error` is a `NatPmpError`. -/
structure NatPmpEnv where
  tcpResult : Except Unit PortMapping
  udpResult : Except Unit PortMapping
  now : Nat

/-- `request_both_protocols` (natpmp.py lines 138-158): TCP then UDP mapping
requests; a public-port mismatch only logs a warning.  Returns the pair and
whether the mismatch warning was logged. -/
def request_both_protocols (env : NatPmpEnv) :
    Except Unit ((PortMapping × PortMapping) × Bool) :=
  match env.tcpResult with
  | .error e => .error e
  | .ok tcp =>
      match env.udpResult with
      | .error e => .error e
      | .ok udp => .ok ((tcp, udp), decide (tcp.public_port ≠ udp.public_port))

/-- `refresh_mapping` (natpmp.py lines 160-180): request both protocols,
store the TCP public port and the refresh instant, and return the TCP
public port.  The `Bool` is the TCP/UDP mismatch warning flag. -/
def refresh_mapping (m : NatPmpManager) (env : NatPmpEnv) :
    Except Unit (Nat × NatPmpManager × Bool) :=
  match request_both_protocols env with
  | .error e => .error e
  | .ok r =>
      let tcp := r.1.1
      let m' := { m with current_port := some tcp.public_port,
                         last_refresh := some env.now }
      .ok (tcp.public_port, m', r.2)

/-! ## State store (service.py `_save_state` / `_load_state`) -/

/-- `ServiceStateData` (service.py lines 36-43), with timestamps as abstract
instants. -/
structure ServiceStateData where
  current_port : Option Nat := none
  consecutive_failures : Nat := 0
  last_port_refresh : Option Nat := none
  last_vpn_check : Option Nat := none
deriving DecidableEq

/-- The state-file document (service.py lines 168-175).  `none` stands both
for JSON `null` and for an absent key, which `data.get` conflates.  The
`last_refresh` timestamp is an abstract instant: `isoformat` followed by
`fromisoformat` is the identity modulo ISO-8601 normalization. -/
structure StateDoc where
  version : Option Nat := none
  last_port : Option Nat := none
  last_refresh : Option Nat := none
  consecutive_failures : Option Nat := none
deriving DecidableEq

/-- `_save_state` (service.py lines 163-182): the document written to the
state file. -/
def save_state (d : ServiceStateData) : StateDoc :=
  { version := some 1,
    last_port := d.current_port,
    last_refresh := d.last_port_refresh,
    consecutive_failures := some d.consecutive_failures }

/-- `_load_state` (service.py lines 139-161): on a successfully parsed
document, set `current_port` from `last_port` and, only when `last_refresh`
is present (truthy), set `last_port_refresh`; nothing else is read.  `none`
models a missing or unparseable state file, which is ignored with a
warning. -/
def load_state (doc : Option StateDoc) (d : ServiceStateData) : ServiceStateData :=
  match doc with
  | none => d
  | some data =>
      let d1 := { d with current_port := data.last_port }
      match data.last_refresh with
      | some ts => { d1 with last_port_refresh := some ts }
      | none => d1

/-! ## Killswitch manager (killswitch.py)

The host firewall is modelled as the part of the `filter` table the manager
touches: whether the `QBOUNCER-KS` chain exists, the ordered rules inside
it, and how many `-m owner --uid-owner <uid> -j QBOUNCER-KS` jump rules the
`OUTPUT` chain holds for the manager's configured UID (the only jump rules
the manager ever creates).  `KsEnv` supplies the failure modes of the
external dependencies: whether `pwd.getpwnam` resolves the user, and whether
the `iptables` binary runs at all (present and not timing out); every
subprocess failure surfaces as `KillswitchError`.  Mutating helpers return
the firewall reached so far together with `some ()` when they raise. -/

/-- One rule of the `QBOUNCER-KS` chain (killswitch.py lines 142-151). -/
inductive KsRule
  | loopback
  | established
  | vpnAccept (iface : String)
  | rejectAll
deriving DecidableEq

/-- The firewall state the manager touches. -/
structure Firewall where
  chainExists : Bool
  chainRules : List KsRule
  outputJumps : Nat
deriving DecidableEq

/-- External-dependency outcomes for killswitch operations. -/
structure KsEnv where
  userFound : Bool
  iptablesOk : Bool
deriving DecidableEq

/-- `_get_uid` (killswitch.py lines 42-58): raises `KillswitchError` when the
user does not resolve. -/
def get_uid (env : KsEnv) : Except Unit Unit :=
  if env.userFound then .ok () else .error ()

/-- `_flush_chain` (killswitch.py lines 185-189): `_chain_exists` check, then
`iptables -F QBOUNCER-KS` when the chain exists. -/
def flush_chain (env : KsEnv) (fw : Firewall) : Firewall × Option Unit :=
  if env.iptablesOk then
    if fw.chainExists then ({ fw with chainRules := [] }, none) else (fw, none)
  else (fw, some ())

/-- The `while self._rule_exists(...)` loop of `_remove_jump_rule`
(killswitch.py lines 196-198), by recursion on the number of remaining jump
rules; each `iptables -D OUTPUT` deletes one.  Returns the remaining count. -/
def remove_jumps_from (env : KsEnv) : Nat → Nat × Option Unit
  | 0 => if env.iptablesOk then (0, none) else (0, some ())
  | n + 1 => if env.iptablesOk then remove_jumps_from env n else (n + 1, some ())

/-- `_remove_jump_rule` (killswitch.py lines 191-198): resolve the UID, then
delete jump rules until the rule-check fails. -/
def remove_jump_rule (env : KsEnv) (fw : Firewall) : Firewall × Option Unit :=
  match get_uid env with
  | .error _ => (fw, some ())
  | .ok _ =>
      let r := remove_jumps_from env fw.outputJumps
      ({ fw with outputJumps := r.1 }, r.2)

/-- `_delete_chain` (killswitch.py lines 200-204): `iptables -X QBOUNCER-KS`
when the chain exists; the kernel refuses to delete a chain that still has
rules or is referenced from `OUTPUT`, which surfaces as `KillswitchError`. -/
def delete_chain (env : KsEnv) (fw : Firewall) : Firewall × Option Unit :=
  if env.iptablesOk then
    if fw.chainExists then
      if fw.chainRules = [] ∧ fw.outputJumps = 0 then
        ({ fw with chainExists := false }, none)
      else (fw, some ())
    else (fw, none)
  else (fw, some ())

/-- `cleanup` (killswitch.py lines 206-221): flush chain, remove jump rules,
delete chain, in that order, with any `KillswitchError` caught and logged.
Returns the resulting firewall and whether an error was caught. -/
def cleanup (env : KsEnv) (fw : Firewall) : Firewall × Bool :=
  match flush_chain env fw with
  | (fw1, some _) => (fw1, true)
  | (fw1, none) =>
      match remove_jump_rule env fw1 with
      | (fw2, some _) => (fw2, true)
      | (fw2, none) =>
          match delete_chain env fw2 with
          | (fw3, e) => (fw3, e.isSome)

/-- `_create_chain` (killswitch.py lines 120-124): `iptables -N QBOUNCER-KS`
when the chain does not already exist. -/
def create_chain (env : KsEnv) (fw : Firewall) : Firewall × Option Unit :=
  if env.iptablesOk then
    if fw.chainExists then (fw, none)
    else ({ fw with chainExists := true, chainRules := [] }, none)
  else (fw, some ())

/-- The four chain rules of `_add_chain_rules` (killswitch.py lines
142-151), in order. -/
def setupRules (iface : String) : List KsRule :=
  [.loopback, .established, .vpnAccept iface, .rejectAll]

/-- One iteration of `_add_chain_rules`: `iptables -C`, then `-A` when the
rule is missing. -/
def add_one_rule (env : KsEnv) (r : KsRule) (fw : Firewall) : Firewall × Option Unit :=
  if env.iptablesOk then
    if r ∈ fw.chainRules then (fw, none)
    else ({ fw with chainRules := fw.chainRules ++ [r] }, none)
  else (fw, some ())

/-- `_add_chain_rules` (killswitch.py lines 140-156). -/
def add_chain_rules (env : KsEnv) (iface : String) (fw : Firewall) :
    Firewall × Option Unit :=
  (setupRules iface).foldl
    (fun acc r =>
      match acc with
      | (f, some e) => (f, some e)
      | (f, none) => add_one_rule env r f)
    (fw, none)

/-- `_add_jump_rule` (killswitch.py lines 126-138): resolve the UID, check
for the jump rule, and `iptables -I OUTPUT 1` it when missing. -/
def add_jump_rule (env : KsEnv) (fw : Firewall) : Firewall × Option Unit :=
  match get_uid env with
  | .error _ => (fw, some ())
  | .ok _ =>
      if env.iptablesOk then
        if 0 < fw.outputJumps then (fw, none)
        else ({ fw with outputJumps := fw.outputJumps + 1 }, none)
      else (fw, some ())

/-- `setup` (killswitch.py lines 158-183): if a residual chain exists, run
`cleanup` (which swallows its own errors) first; then create the chain, add
the chain rules, and add the jump rule.  Errors propagate to the caller. -/
def ks_setup (env : KsEnv) (iface : String) (fw : Firewall) : Firewall × Option Unit :=
  if env.iptablesOk then
    let fw0 := if fw.chainExists then (cleanup env fw).1 else fw
    match create_chain env fw0 with
    | (fw1, some e) => (fw1, some e)
    | (fw1, none) =>
        match add_chain_rules env iface fw1 with
        | (fw2, some e) => (fw2, some e)
        | (fw2, none) => add_jump_rule env fw2
  else (fw, some ())

/-- A KillswitchManager operation, as invoked from outside. -/
inductive KsOp
  | setupOp
  | cleanupOp
deriving DecidableEq

/-- One manager operation as performed by a caller that catches
`KillswitchError` (as the supervisor does): the firewall afterwards, and the
error the operation raised to the caller, if any.  `cleanup` catches its own
errors and never raises. -/
def applyOp (env : KsEnv) (iface : String) (op : KsOp) (fw : Firewall) :
    Firewall × Option Unit :=
  match op with
  | .setupOp => ks_setup env iface fw
  | .cleanupOp => ((cleanup env fw).1, none)

/-- A sequence of manager operations, each run by a caller that catches
raised errors and keeps going. -/
def applyOps (env : KsEnv) (iface : String) (ops : List KsOp) (fw : Firewall) :
    Firewall :=
  ops.foldl (fun f op => (applyOp env iface op f).1) fw

/-! ## Supervisor tick (service.py) -/

/-- `ServiceState` (service.py lines 46-56). -/
inductive ServiceState
  | INITIALIZING
  | WAITING_VPN
  | WAITING_QBT
  | MAPPING_PORT
  | CONFIGURING
  | MONITORING
  | RECOVERING
  | SHUTTING_DOWN
deriving DecidableEq

/-- The collaborator-call outcomes one tick can observe.  An `.error` in an
`Except` field is the corresponding exception (`WireGuardError`,
`NatPmpError`, `QBittorrentError`, `KillswitchError`); booleans stand for
calls that report failure by raising (`true` = no exception). -/
structure TickEnv where
  now : Nat
  wgHealthy : Except Unit Bool
  ksSetupOk : Bool
  qbtReachable : Bool
  natpmpRefresh : Except Unit Nat
  qbtListenPort : Except Unit Nat
  qbtIface : Except Unit String
  qbtUpdateOk : Bool
  ksVerify : Except Unit Bool

/-- `_handle_failure` (service.py lines 430-440): increment
`consecutive_failures` and, at or above `max_consecutive_failures`, move to
`RECOVERING`. -/
def handle_failure (cfg : Config) (s : ServiceState) (d : ServiceStateData) :
    ServiceState × ServiceStateData :=
  if ((d.consecutive_failures + 1 : Nat) : Int) ≥ cfg.max_consecutive_failures then
    (ServiceState.RECOVERING,
     { d with consecutive_failures := d.consecutive_failures + 1 })
  else (s, { d with consecutive_failures := d.consecutive_failures + 1 })

/-- `_wait_for_vpn` (service.py lines 242-261).  A result of `.error` means
an exception escaped the tick (here `WireGuardError` from `is_healthy`). -/
def wait_for_vpn (cfg : Config) (env : TickEnv) (s : ServiceState)
    (d : ServiceStateData) : Except Unit (ServiceState × ServiceStateData) :=
  match env.wgHealthy with
  | .error e => .error e
  | .ok false => .ok (s, d)
  | .ok true =>
      if cfg.killswitch_enabled ∧ env.ksSetupOk = false then
        .ok (handle_failure cfg s d)
      else
        .ok (ServiceState.WAITING_QBT, { d with consecutive_failures := 0 })

/-- `_wait_for_qbittorrent` (service.py lines 263-273); `is_reachable` and
`get_version` never raise. -/
def wait_for_qbittorrent (env : TickEnv) (s : ServiceState) (d : ServiceStateData) :
    Except Unit (ServiceState × ServiceStateData) :=
  if env.qbtReachable then
    .ok (ServiceState.MAPPING_PORT, { d with consecutive_failures := 0 })
  else .ok (s, d)

/-- `_request_port_mapping` (service.py lines 275-314).  On `NatPmpError` the
source runs `self._handle_failure()` and then assigns
`self.state = ServiceState.WAITING_VPN`, overwriting any `RECOVERING`
transition the failure handler chose. -/
def request_port_mapping (cfg : Config) (env : TickEnv) (s : ServiceState)
    (d : ServiceStateData) : Except Unit (ServiceState × ServiceStateData) :=
  match env.natpmpRefresh with
  | .error _ =>
      let r := handle_failure cfg s d
      .ok (ServiceState.WAITING_VPN, r.2)
  | .ok newPort =>
      let oldPort := d.current_port
      let d1 := { d with current_port := some newPort,
                         last_port_refresh := some env.now,
                         consecutive_failures := 0 }
      if oldPort ≠ some newPort then .ok (ServiceState.CONFIGURING, d1)
      else
        match env.qbtListenPort with
        | .ok qbtPort =>
            if qbtPort ≠ newPort then .ok (ServiceState.CONFIGURING, d1)
            else .ok (ServiceState.MONITORING, d1)
        | .error _ => .ok (ServiceState.CONFIGURING, d1)

/-- `_configure_qbittorrent` (service.py lines 316-358). -/
def configure_qbittorrent (cfg : Config) (env : TickEnv) (s : ServiceState)
    (d : ServiceStateData) : Except Unit (ServiceState × ServiceStateData) :=
  match d.current_port with
  | none => .ok (ServiceState.MAPPING_PORT, d)
  | some port =>
      match env.qbtListenPort with
      | .error _ => .ok (handle_failure cfg s d)
      | .ok curPort =>
          match env.qbtIface with
          | .error _ => .ok (handle_failure cfg s d)
          | .ok curIface =>
              if (curPort ≠ port ∨ curIface ≠ cfg.qbt_interface_binding) ∧
                  env.qbtUpdateOk = false then
                .ok (handle_failure cfg s d)
              else
                .ok (ServiceState.MONITORING, { d with consecutive_failures := 0 })

/-- Whether a periodic check is due: `last` unset, or
`(now - last).total_seconds() >= interval` (service.py lines 365-369 and
377-381). -/
def dueSince (lastT : Option Nat) (now : Nat) (interval : Int) : Bool :=
  match lastT with
  | none => true
  | some t => decide ((now : Int) - (t : Int) ≥ interval)

/-- The part of `_monitor` after the VPN health check (service.py lines
376-415): port-refresh due check, reachability and interface-binding probes
(a `QBittorrentError` here is caught and moves to `WAITING_QBT` without
counting a failure), then the killswitch verify/re-setup step. -/
def monitor_checks (cfg : Config) (env : TickEnv) (s : ServiceState)
    (d : ServiceStateData) : Except Unit (ServiceState × ServiceStateData) :=
  if dueSince d.last_port_refresh env.now cfg.natpmp_refresh_interval then
    .ok (ServiceState.MAPPING_PORT, d)
  else if env.qbtReachable = false then
    .ok (ServiceState.WAITING_QBT, d)
  else
    match env.qbtIface with
    | .error _ => .ok (ServiceState.WAITING_QBT, d)
    | .ok curIface =>
        if curIface ≠ cfg.qbt_interface_binding then
          .ok (ServiceState.CONFIGURING, d)
        else if cfg.killswitch_enabled then
          match env.ksVerify with
          | .error e => .error e
          | .ok true => .ok (s, d)
          | .ok false =>
              if env.ksSetupOk then .ok (s, d)
              else .ok (handle_failure cfg s d)
        else .ok (s, d)

/-- `_monitor` (service.py lines 360-415): the VPN health check when due,
then the remaining checks. -/
def monitor (cfg : Config) (env : TickEnv) (s : ServiceState)
    (d : ServiceStateData) : Except Unit (ServiceState × ServiceStateData) :=
  if dueSince d.last_vpn_check env.now cfg.wg_health_check_interval then
    match env.wgHealthy with
    | .error e => .error e
    | .ok false => .ok (ServiceState.WAITING_VPN, d)
    | .ok true =>
        monitor_checks cfg env s { d with last_vpn_check := some env.now }
  else monitor_checks cfg env s d

/-- `_tick` (service.py lines 227-240): dispatch on the current state.
`INITIALIZING` and `SHUTTING_DOWN` have no branch and do nothing. -/
def tick (cfg : Config) (env : TickEnv) (s : ServiceState) (d : ServiceStateData) :
    Except Unit (ServiceState × ServiceStateData) :=
  match s with
  | .WAITING_VPN => wait_for_vpn cfg env s d
  | .WAITING_QBT => wait_for_qbittorrent env s d
  | .MAPPING_PORT => request_port_mapping cfg env s d
  | .CONFIGURING => configure_qbittorrent cfg env s d
  | .MONITORING => monitor cfg env s d
  | .RECOVERING => .ok (ServiceState.WAITING_VPN, d)
  | _ => .ok (s, d)

/-- One iteration of the `run` loop body (service.py lines 214-223): an
exception escaping `_tick` is caught and routed to `_handle_failure`; at
every raise point of the tick no state mutation has happened yet, so the
handler sees the pre-tick state. -/
def runStep (cfg : Config) (env : TickEnv) (s : ServiceState)
    (d : ServiceStateData) : ServiceState × ServiceStateData :=
  match tick cfg env s d with
  | .ok r => r
  | .error _ => handle_failure cfg s d

/-! ## Theorems -/

/-- C5: a configuration with `natpmp.refresh_interval ≥ natpmp.lease_lifetime`
fails validation with a `ConfigError`, and a configuration with
`refresh_interval < lease_lifetime` whose every other field passes its check
validates successfully. -/
theorem config_refresh_interval_check (c : Config) (userExists : Bool) :
    (c.natpmp_refresh_interval ≥ c.natpmp_lease_lifetime →
      (c.validate userExists).isSome = true) ∧
    (configOtherFieldsValid c userExists →
      c.natpmp_refresh_interval < c.natpmp_lease_lifetime →
      c.validate userExists = none) := by
  constructor
  · intro h
    unfold Config.validate
    split_ifs
    all_goals rfl
  · intro hv hlt
    obtain ⟨h1, h2, h3, h4, h5, h6, h7, h8, h9, h10, h11, h12, h13⟩ := hv
    unfold Config.validate
    rw [if_neg (by simp [h1]), if_neg (by simp [h2]), if_neg (by simp [h3]),
        if_neg (by simp [h4]), if_neg (not_not_intro h5),
        if_neg (by omega), if_neg (by omega), if_neg (by omega),
        if_neg (by omega), if_neg (by omega), if_neg (by omega),
        if_neg (by omega), if_neg (not_not_intro h12),
        if_neg (by rintro ⟨ha, hb⟩; rw [h13 ha] at hb; simp at hb)]

/-- Witness for C5 at the default configuration (refresh 60 s, lease 120 s). -/
theorem config_refresh_interval_check_witness :
    configOtherFieldsValid {} true ∧ (60 : Int) < 120 ∧
      Config.validate {} true = none :=
  ⟨by decide, by decide,
    (config_refresh_interval_check {} true).2 (by decide) (by decide)⟩

/-- C2: `update_port_and_interface(p, i)` issues exactly one POST to
`/api/v2/app/setPreferences` whose `json` form field encodes exactly the two
keys `listen_port = p` and `current_network_interface = i`, and no other
preference key is sent. -/
theorem update_port_and_interface_single_call (port : Int) (iface : String) :
    update_port_and_interface port iface =
      [{ method := "post", endpoint := "/api/v2/app/setPreferences",
         formData := [("json",
           dumps [("listen_port", PrefValue.int port),
                  ("current_network_interface", PrefValue.str iface)])] }] ∧
    ([("listen_port", PrefValue.int port),
      ("current_network_interface", PrefValue.str iface)].map Prod.fst =
        ["listen_port", "current_network_interface"]) :=
  ⟨rfl, rfl⟩

/-- C6 counterexample: the `get_public_ip` invocation of `natpmpc` passes
`timeout=10`, not a 30-second timeout as the claim states for every
invocation. -/
theorem natpmpc_public_ip_timeout_is_10 :
    (get_public_ip_cmd { gateway := "10.2.0.1" }).timeoutSec = 10 ∧
    (get_public_ip_cmd { gateway := "10.2.0.1" }).timeoutSec ≠ 30 :=
  ⟨rfl, by decide⟩

/-- C6 amended: the TCP and UDP mapping requests are bounded by a 30-second
timeout, while the public-IP query and the release are bounded by a
10-second timeout; every `natpmpc` invocation is bounded by at most 30
seconds. -/
theorem natpmpc_invocation_timeouts (m : NatPmpManager) (port : Nat)
    (protocol : String) :
    (request_mapping_cmd m protocol).timeoutSec = 30 ∧
    (get_public_ip_cmd m).timeoutSec = 10 ∧
    (release_mapping_cmd m port protocol).timeoutSec = 10 ∧
    (request_mapping_cmd m protocol).timeoutSec ≤ 30 ∧
    (get_public_ip_cmd m).timeoutSec ≤ 30 ∧
    (release_mapping_cmd m port protocol).timeoutSec ≤ 30 :=
  ⟨rfl, rfl, rfl, by simp [request_mapping_cmd], by simp [get_public_ip_cmd],
   by simp [release_mapping_cmd]⟩

/-- C7: when the TCP and UDP mapping requests both succeed but return
different public ports, `refresh_mapping` logs the mismatch warning, does
not raise, and returns the TCP public port, which becomes the stored
`current_port`. -/
theorem refresh_mapping_mismatch_keeps_tcp (m : NatPmpManager)
    (tcp udp : PortMapping) (env : NatPmpEnv)
    (htcp : env.tcpResult = .ok tcp) (hudp : env.udpResult = .ok udp)
    (hne : tcp.public_port ≠ udp.public_port) :
    refresh_mapping m env =
      .ok (tcp.public_port,
        { m with current_port := some tcp.public_port,
                 last_refresh := some env.now }, true) := by
  simp [refresh_mapping, request_both_protocols, htcp, hudp, hne]

/-- Witness for C7: a refresh whose TCP mapping reports port 51413 and whose
UDP mapping reports port 42000. -/
theorem refresh_mapping_mismatch_keeps_tcp_witness :
    refresh_mapping ⟨"10.2.0.1", 120, none, none⟩
      ⟨.ok ⟨51413, 51413, "TCP", 120, 7⟩, .ok ⟨42000, 42000, "UDP", 120, 8⟩, 9⟩ =
      .ok (51413, ⟨"10.2.0.1", 120, some 51413, some 9⟩, true) :=
  refresh_mapping_mismatch_keeps_tcp _ _ _ _ rfl rfl (by decide)

/-- C8: saving the runtime state and then loading the document just written
(at startup, over a fresh `ServiceStateData`) restores `current_port` and
`last_port_refresh` to the saved values. -/
theorem save_then_load_restores (d : ServiceStateData) :
    (load_state (some (save_state d)) {}).current_port = d.current_port ∧
    (load_state (some (save_state d)) {}).last_port_refresh =
      d.last_port_refresh := by
  cases h : d.last_port_refresh <;> simp [load_state, save_state, h]

/-- C9: `_load_state` never reads the persisted `consecutive_failures`
field: loading leaves `consecutive_failures` (and `last_vpn_check`)
untouched for every document, so after startup loading it is 0 regardless of
the file, even though `_save_state` does write the field. -/
theorem load_state_ignores_consecutive_failures (doc : Option StateDoc)
    (d : ServiceStateData) :
    (load_state doc d).consecutive_failures = d.consecutive_failures ∧
    (load_state doc d).last_vpn_check = d.last_vpn_check ∧
    (load_state doc ({} : ServiceStateData)).consecutive_failures = 0 ∧
    (save_state d).consecutive_failures = some d.consecutive_failures := by
  rcases doc with _ | data
  · simp [load_state, save_state]
  · rcases h : data.last_refresh with _ | ts <;>
      simp [load_state, save_state, h]

/-- C10: `get_version` never raises: whenever the underlying `_request`
fails with a `QBittorrentError` (connection failure, authentication failure,
timeout, or non-2xx response) the error is caught and the literal
`"unknown"` is returned, and on success the stripped body is returned. -/
theorem get_version_catches_all_errors (username : String) (authed : Bool)
    (env : ReqEnv) :
    ((requestCall username authed "get" "/api/v2/app/version" env).1 =
        .error () → get_version username authed env = "unknown") ∧
    (∀ st text,
      (requestCall username authed "get" "/api/v2/app/version" env).1 =
        .ok (st, text) → get_version username authed env = text.trim) := by
  unfold get_version
  constructor
  · intro h
    rw [h]
  · intro st text h
    rw [h]

/-- Witness for C10: a request whose first attempt is a connection error
yields `"unknown"`. -/
theorem get_version_catches_all_errors_witness :
    get_version "admin" true
      ⟨.resp 200 "Ok.", .connError, .resp 200 "Ok.", .resp 200 "v4.6.0"⟩ =
      "unknown" :=
  (get_version_catches_all_errors "admin" true
    ⟨.resp 200 "Ok.", .connError, .resp 200 "Ok.", .resp 200 "v4.6.0"⟩).1 rfl

/-- C3: on a 403 response to a call made with a username configured (and a
session already held), `_request` re-authenticates exactly once and retries
the same request exactly once — the wire trace is attempt, login, attempt —
and when the retried request also fails, a `QBittorrentError` is raised with
no second re-authentication. -/
theorem request_403_reauth_once (username method endpoint t : String)
    (env : ReqEnv) (hu : username ≠ "") (hf : env.first = .resp 403 t)
    (hl : loginResult env.login2 = .ok ()) :
    (requestCall username true method endpoint env).2 =
      [ApiAction.attempt method endpoint, ApiAction.login,
       ApiAction.attempt method endpoint] ∧
    (outcomeFails env.second = true →
      (requestCall username true method endpoint env).1 = .error ()) := by
  have h1 : ensure_authenticated username true env.login1 = (.ok true, []) := by
    simp [ensure_authenticated, hu]
  have h2 : ensure_authenticated username false env.login2 =
      (.ok true, [.login]) := by
    simp [ensure_authenticated, hu, hl]
  constructor
  · cases hs : env.second with
    | connError => simp [requestCall, h1, h2, hf, hu, hs]
    | timeout => simp [requestCall, h1, h2, hf, hu, hs]
    | resp st2 text2 =>
        simp [requestCall, h1, h2, hf, hu, hs]
        split <;> rfl
  · intro hfail
    cases hs : env.second with
    | connError => simp [requestCall, h1, h2, hf, hu, hs]
    | timeout => simp [requestCall, h1, h2, hf, hu, hs]
    | resp st2 text2 =>
        have hle : 400 ≤ st2 := by simpa [outcomeFails, hs] using hfail
        simp [requestCall, h1, h2, hf, hu, hs, hle]

/-- Witness for C3: a 403 on `GET /api/v2/app/preferences`, a successful
re-login, and a second 403, ending in a raised error after the single
retry. -/
theorem request_403_reauth_once_witness :
    ("admin" : String) ≠ "" ∧
    (requestCall "admin" true "get" "/api/v2/app/preferences"
        ⟨.resp 200 "Ok.", .resp 403 "Forbidden", .resp 200 "Ok.",
         .resp 403 "Forbidden"⟩).2 =
      [ApiAction.attempt "get" "/api/v2/app/preferences", ApiAction.login,
       ApiAction.attempt "get" "/api/v2/app/preferences"] ∧
    (requestCall "admin" true "get" "/api/v2/app/preferences"
        ⟨.resp 200 "Ok.", .resp 403 "Forbidden", .resp 200 "Ok.",
         .resp 403 "Forbidden"⟩).1 = .error () :=
  ⟨by decide,
   (request_403_reauth_once "admin" "get" "/api/v2/app/preferences"
      "Forbidden" ⟨.resp 200 "Ok.", .resp 403 "Forbidden", .resp 200 "Ok.",
        .resp 403 "Forbidden"⟩ (by decide) rfl rfl).1,
   (request_403_reauth_once "admin" "get" "/api/v2/app/preferences"
      "Forbidden" ⟨.resp 200 "Ok.", .resp 403 "Forbidden", .resp 200 "Ok.",
        .resp 403 "Forbidden"⟩ (by decide) rfl rfl).2 (by decide)⟩

/-- When iptables runs, the jump-removal loop deletes every jump rule and
completes without error. -/
theorem remove_jumps_from_ok (env : KsEnv) (h : env.iptablesOk = true) :
    ∀ n, remove_jumps_from env n = (0, none) := by
  intro n
  induction n with
  | zero => simp [remove_jumps_from, h]
  | succ k ih => simp [remove_jumps_from, h, ih]

/-- When the user resolves and iptables runs, `cleanup` from any firewall
state deletes the chain and every jump rule without catching an error; the
rules of a chain that did not exist are untouched (there are none in a real
table). -/
theorem cleanup_ok (env : KsEnv) (fw : Firewall)
    (hu : env.userFound = true) (hi : env.iptablesOk = true) :
    cleanup env fw =
      ({ chainExists := false,
         chainRules := if fw.chainExists then [] else fw.chainRules,
         outputJumps := 0 }, false) := by
  rcases fw with ⟨ce, cr, oj⟩
  cases ce <;>
    simp [cleanup, flush_chain, remove_jump_rule, get_uid, delete_chain,
      hu, hi, remove_jumps_from_ok env hi]

/-- C4: for every sequence of manager operations ending with `cleanup()`,
the `QBOUNCER-KS` chain and every `OUTPUT` jump rule referencing it are
absent afterwards; `cleanup` flushes, removes the jump rules, and deletes
the chain in an order that lets the delete succeed (no error is caught when
the tools work); a second `cleanup()` after a first is a no-op; and
`cleanup()` never raises to its caller, whatever the environment. -/
theorem cleanup_removes_chain_and_jumps (env env2 : KsEnv) (iface : String)
    (ops : List KsOp) (fw fw2 : Firewall)
    (hu : env.userFound = true) (hi : env.iptablesOk = true) :
    (applyOps env iface (ops ++ [KsOp.cleanupOp]) fw).chainExists = false ∧
    (applyOps env iface (ops ++ [KsOp.cleanupOp]) fw).outputJumps = 0 ∧
    (cleanup env (applyOps env iface ops fw)).2 = false ∧
    cleanup env (applyOps env iface (ops ++ [KsOp.cleanupOp]) fw) =
      (applyOps env iface (ops ++ [KsOp.cleanupOp]) fw, false) ∧
    (applyOp env2 iface KsOp.cleanupOp fw2).2 = none := by
  have hstep : applyOps env iface (ops ++ [KsOp.cleanupOp]) fw =
      (cleanup env (applyOps env iface ops fw)).1 := by
    simp [applyOps, List.foldl_append, applyOp]
  rw [hstep, cleanup_ok env _ hu hi]
  refine ⟨rfl, rfl, rfl, ?_, rfl⟩
  rw [cleanup_ok env _ hu hi]
  simp

/-- Witness for C4: a setup followed by a cleanup on an initially empty
firewall, with working tools; the never-raises conjunct instantiated at a
broken environment. -/
theorem cleanup_removes_chain_and_jumps_witness :
    (applyOps ⟨true, true⟩ "wg2" ([KsOp.setupOp] ++ [KsOp.cleanupOp])
        ⟨false, [], 0⟩).chainExists = false ∧
    (applyOps ⟨true, true⟩ "wg2" ([KsOp.setupOp] ++ [KsOp.cleanupOp])
        ⟨false, [], 0⟩).outputJumps = 0 ∧
    (cleanup ⟨true, true⟩ (applyOps ⟨true, true⟩ "wg2" [KsOp.setupOp]
        ⟨false, [], 0⟩)).2 = false ∧
    cleanup ⟨true, true⟩ (applyOps ⟨true, true⟩ "wg2"
        ([KsOp.setupOp] ++ [KsOp.cleanupOp]) ⟨false, [], 0⟩) =
      (applyOps ⟨true, true⟩ "wg2" ([KsOp.setupOp] ++ [KsOp.cleanupOp])
        ⟨false, [], 0⟩, false) ∧
    (applyOp ⟨false, false⟩ "wg2" KsOp.cleanupOp ⟨true, [.rejectAll], 2⟩).2 =
      none :=
  cleanup_removes_chain_and_jumps ⟨true, true⟩ ⟨false, false⟩ "wg2"
    [KsOp.setupOp] ⟨false, [], 0⟩ ⟨true, [.rejectAll], 2⟩ rfl rfl

/-- `_handle_failure` always increments the failure counter by exactly 1. -/
theorem handle_failure_count (cfg : Config) (s : ServiceState)
    (d : ServiceStateData) :
    (handle_failure cfg s d).2.consecutive_failures =
      d.consecutive_failures + 1 := by
  unfold handle_failure
  split <;> rfl

/-- When the incremented counter reaches the threshold, `_handle_failure`
selects `RECOVERING`. -/
theorem handle_failure_recovering_of_threshold (cfg : Config)
    (s : ServiceState) (d : ServiceStateData)
    (h : ((handle_failure cfg s d).2.consecutive_failures : Int) ≥
      cfg.max_consecutive_failures) :
    (handle_failure cfg s d).1 = ServiceState.RECOVERING := by
  rw [handle_failure_count] at h
  unfold handle_failure
  rw [if_pos h]

/-- A successful NAT-PMP refresh resets the failure counter, whichever
branch `_request_port_mapping` then takes. -/
theorem request_port_mapping_ok_resets (cfg : Config) (env : TickEnv)
    (s : ServiceState) (d : ServiceStateData) (newPort : Nat)
    (hn : env.natpmpRefresh = .ok newPort) :
    ∃ st dd, request_port_mapping cfg env s d = .ok (st, dd) ∧
      dd.consecutive_failures = 0 := by
  unfold request_port_mapping
  rw [hn]
  dsimp only
  split
  · exact ⟨_, _, rfl, rfl⟩
  · split
    · split
      · exact ⟨_, _, rfl, rfl⟩
      · exact ⟨_, _, rfl, rfl⟩
    · exact ⟨_, _, rfl, rfl⟩

/-- The failure counter after a `MAPPING_PORT` tick whose refresh succeeded
is 0. -/
theorem mapping_port_ok_resets (cfg : Config) (env : TickEnv)
    (d : ServiceStateData) (newPort : Nat)
    (hn : env.natpmpRefresh = .ok newPort) :
    (runStep cfg env ServiceState.MAPPING_PORT d).2.consecutive_failures =
      0 := by
  obtain ⟨st, dd, hok, hcf⟩ :=
    request_port_mapping_ok_resets cfg env ServiceState.MAPPING_PORT d newPort hn
  simp only [runStep, tick, hok]
  exact hcf

/-- The possible outcomes of the post-VPN part of a `MONITORING` tick: a
transition with the data unchanged, a counted failure, or an escaping
exception. -/
theorem monitor_checks_cases (cfg : Config) (env : TickEnv) (s : ServiceState)
    (d : ServiceStateData) :
    monitor_checks cfg env s d = .ok (ServiceState.MAPPING_PORT, d) ∨
    monitor_checks cfg env s d = .ok (ServiceState.WAITING_QBT, d) ∨
    monitor_checks cfg env s d = .ok (ServiceState.CONFIGURING, d) ∨
    monitor_checks cfg env s d = .ok (s, d) ∨
    monitor_checks cfg env s d = .ok (handle_failure cfg s d) ∨
    ∃ e, monitor_checks cfg env s d = .error e := by
  unfold monitor_checks
  repeat' split
  all_goals simp

/-- A `MONITORING` tick that delegates to `monitor_checks` on data with the
same failure count satisfies the amended C1 conclusion. -/
theorem monitoring_from_checks (cfg : Config) (env : TickEnv)
    (d d0 : ServiceStateData)
    (hcf : d0.consecutive_failures = d.consecutive_failures)
    (hm : tick cfg env ServiceState.MONITORING d =
      monitor_checks cfg env ServiceState.MONITORING d0)
    (hcount : (runStep cfg env ServiceState.MONITORING d).2.consecutive_failures =
      d.consecutive_failures + 1)
    (hthresh : ((runStep cfg env ServiceState.MONITORING d).2.consecutive_failures :
      Int) ≥ cfg.max_consecutive_failures) :
    (runStep cfg env ServiceState.MONITORING d).1 = ServiceState.RECOVERING := by
  rcases monitor_checks_cases cfg env ServiceState.MONITORING d0 with
    h | h | h | h | h | ⟨e, h⟩
  · exfalso
    simp [runStep, hm, h] at hcount
    omega
  · exfalso
    simp [runStep, hm, h] at hcount
    omega
  · exfalso
    simp [runStep, hm, h] at hcount
    omega
  · exfalso
    simp [runStep, hm, h] at hcount
    omega
  · have hr : runStep cfg env ServiceState.MONITORING d =
        handle_failure cfg ServiceState.MONITORING d0 := by
      simp [runStep, hm, h]
    rw [hr] at hthresh ⊢
    exact handle_failure_recovering_of_threshold cfg _ _ hthresh
  · have hr : runStep cfg env ServiceState.MONITORING d =
        handle_failure cfg ServiceState.MONITORING d := by
      simp [runStep, hm, h]
    rw [hr] at hthresh ⊢
    exact handle_failure_recovering_of_threshold cfg _ _ hthresh

/-- C1 counterexample: in `MAPPING_PORT` with `max_consecutive_failures = 1`
and a failing NAT-PMP refresh, the tick counts the failure and the updated
count reaches the threshold, yet the state after the tick is `WAITING_VPN`,
not `RECOVERING` (the transition to `WAITING_VPN` overwrites the failure
handler's choice). -/
theorem mapping_port_natpmp_failure_not_recovering :
    (runStep { max_consecutive_failures := 1 }
        ⟨0, .ok true, true, true, .error (), .ok 0, .ok "", true, .ok true⟩
        ServiceState.MAPPING_PORT {}).2.consecutive_failures = 1 ∧
    ((1 : Int) ≥
      ({ max_consecutive_failures := 1 } : Config).max_consecutive_failures) ∧
    (runStep { max_consecutive_failures := 1 }
        ⟨0, .ok true, true, true, .error (), .ok 0, .ok "", true, .ok true⟩
        ServiceState.MAPPING_PORT {}).1 = ServiceState.WAITING_VPN ∧
    (runStep { max_consecutive_failures := 1 }
        ⟨0, .ok true, true, true, .error (), .ok 0, .ok "", true, .ok true⟩
        ServiceState.MAPPING_PORT {}).1 ≠ ServiceState.RECOVERING :=
  ⟨rfl, by decide, rfl, by decide⟩

/-- C1 amended: every tick that ends with a counted failure increments
`consecutive_failures` by one, and whenever the updated count reaches
`max_consecutive_failures` the state after the tick is `RECOVERING` — except
when the failure is a NAT-PMP refresh failure in `MAPPING_PORT`, where the
transition to `WAITING_VPN` overwrites the failure handler's `RECOVERING`
and the state after the tick is `WAITING_VPN`. -/
theorem tick_failure_accounting (cfg : Config) (env : TickEnv)
    (s : ServiceState) (d : ServiceStateData)
    (hcount : (runStep cfg env s d).2.consecutive_failures =
      d.consecutive_failures + 1)
    (hthresh : ((runStep cfg env s d).2.consecutive_failures : Int) ≥
      cfg.max_consecutive_failures) :
    (runStep cfg env s d).1 = ServiceState.RECOVERING ∨
      (s = ServiceState.MAPPING_PORT ∧ env.natpmpRefresh = .error () ∧
        (runStep cfg env s d).1 = ServiceState.WAITING_VPN) := by
  cases s with
  | INITIALIZING =>
      exfalso
      simp [runStep, tick] at hcount
  | SHUTTING_DOWN =>
      exfalso
      simp [runStep, tick] at hcount
  | RECOVERING =>
      exfalso
      simp [runStep, tick] at hcount
  | WAITING_QBT =>
      exfalso
      cases hq : env.qbtReachable <;>
        simp [runStep, tick, wait_for_qbittorrent, hq] at hcount
  | WAITING_VPN =>
      left
      rcases hw : env.wgHealthy with e | b
      · have hr : runStep cfg env ServiceState.WAITING_VPN d =
            handle_failure cfg ServiceState.WAITING_VPN d := by
          simp [runStep, tick, wait_for_vpn, hw]
        rw [hr] at hthresh ⊢
        exact handle_failure_recovering_of_threshold cfg _ _ hthresh
      · cases b with
        | false =>
            exfalso
            simp [runStep, tick, wait_for_vpn, hw] at hcount
        | true =>
            by_cases hk : cfg.killswitch_enabled ∧ env.ksSetupOk = false
            · have hr : runStep cfg env ServiceState.WAITING_VPN d =
                  handle_failure cfg ServiceState.WAITING_VPN d := by
                simp [runStep, tick, wait_for_vpn, hw, hk]
              rw [hr] at hthresh ⊢
              exact handle_failure_recovering_of_threshold cfg _ _ hthresh
            · exfalso
              simp [runStep, tick, wait_for_vpn, hw, hk] at hcount
  | MAPPING_PORT =>
      rcases hn : env.natpmpRefresh with e | newPort
      · right
        cases e
        refine ⟨rfl, rfl, ?_⟩
        simp [runStep, tick, request_port_mapping, hn]
      · exfalso
        rw [mapping_port_ok_resets cfg env d newPort hn] at hcount
        omega
  | CONFIGURING =>
      left
      rcases hcp : d.current_port with _ | port
      · exfalso
        simp [runStep, tick, configure_qbittorrent, hcp] at hcount
      · rcases hl : env.qbtListenPort with e | curPort
        · have hr : runStep cfg env ServiceState.CONFIGURING d =
              handle_failure cfg ServiceState.CONFIGURING d := by
            simp [runStep, tick, configure_qbittorrent, hcp, hl]
          rw [hr] at hthresh ⊢
          exact handle_failure_recovering_of_threshold cfg _ _ hthresh
        · rcases hi : env.qbtIface with e | curIface
          · have hr : runStep cfg env ServiceState.CONFIGURING d =
                handle_failure cfg ServiceState.CONFIGURING d := by
              simp [runStep, tick, configure_qbittorrent, hcp, hl, hi]
            rw [hr] at hthresh ⊢
            exact handle_failure_recovering_of_threshold cfg _ _ hthresh
          · by_cases hup : (curPort ≠ port ∨
                curIface ≠ cfg.qbt_interface_binding) ∧ env.qbtUpdateOk = false
            · have hr : runStep cfg env ServiceState.CONFIGURING d =
                  handle_failure cfg ServiceState.CONFIGURING d := by
                simp [runStep, tick, configure_qbittorrent, hcp, hl, hi, hup]
              rw [hr] at hthresh ⊢
              exact handle_failure_recovering_of_threshold cfg _ _ hthresh
            · exfalso
              simp [runStep, tick, configure_qbittorrent, hcp, hl, hi, hup]
                at hcount
  | MONITORING =>
      left
      cases hdv : dueSince d.last_vpn_check env.now cfg.wg_health_check_interval with
      | false =>
          refine monitoring_from_checks cfg env d d rfl ?_ hcount hthresh
          simp [tick, monitor, hdv]
      | true =>
          rcases hw : env.wgHealthy with e | b
          · have hr : runStep cfg env ServiceState.MONITORING d =
                handle_failure cfg ServiceState.MONITORING d := by
              simp [runStep, tick, monitor, hdv, hw]
            rw [hr] at hthresh ⊢
            exact handle_failure_recovering_of_threshold cfg _ _ hthresh
          · cases b with
            | false =>
                exfalso
                simp [runStep, tick, monitor, hdv, hw] at hcount
            | true =>
                refine monitoring_from_checks cfg env d
                  { d with last_vpn_check := some env.now } rfl ?_ hcount hthresh
                simp [tick, monitor, hdv, hw]

/-- Witness for C1 amended: a `CONFIGURING` tick whose `get_listening_port`
raises, with `max_consecutive_failures = 1`, ends in `RECOVERING`. -/
theorem tick_failure_accounting_witness :
    (runStep { max_consecutive_failures := 1 }
        ⟨0, .ok true, true, true, .ok 5, .error (), .ok "wg2", true, .ok true⟩
        ServiceState.CONFIGURING
        { current_port := some 5 }).2.consecutive_failures =
      ({ current_port := some 5 } : ServiceStateData).consecutive_failures + 1 ∧
    (((runStep { max_consecutive_failures := 1 }
        ⟨0, .ok true, true, true, .ok 5, .error (), .ok "wg2", true, .ok true⟩
        ServiceState.CONFIGURING
        { current_port := some 5 }).2.consecutive_failures : Int) ≥
      ({ max_consecutive_failures := 1 } : Config).max_consecutive_failures) ∧
    ((runStep { max_consecutive_failures := 1 }
        ⟨0, .ok true, true, true, .ok 5, .error (), .ok "wg2", true, .ok true⟩
        ServiceState.CONFIGURING { current_port := some 5 }).1 =
          ServiceState.RECOVERING ∨
      (ServiceState.CONFIGURING = ServiceState.MAPPING_PORT ∧
        (⟨0, .ok true, true, true, .ok 5, .error (), .ok "wg2", true,
          .ok true⟩ : TickEnv).natpmpRefresh = .error () ∧
        (runStep { max_consecutive_failures := 1 }
          ⟨0, .ok true, true, true, .ok 5, .error (), .ok "wg2", true, .ok true⟩
          ServiceState.CONFIGURING { current_port := some 5 }).1 =
            ServiceState.WAITING_VPN)) :=
  ⟨rfl, by decide, tick_failure_accounting _ _ _ _ rfl (by decide)⟩

end QBouncer
